import Mathlib

set_option maxHeartbeats 1000000

/-!
Verification of the libpq driving path (`psycopg/pqpath.c`): SQLSTATE
error classification, severity stripping, critical-flag management, the
transaction state machine, query execution and the protocol-3 COPY
streaming loops, shallowly embedded as pure functions over explicit
connection state.  Backend and libpq behaviour is supplied to each
function as an explicit oracle (lists of call outcomes), so every
definition is executable on concrete inputs.
-/

/-- The exception taxonomy of the driver (spec §7), built with the
`PSYCOPG_EXTENSIONS` variants (`TransactionRollback`, `QueryCanceled`)
enabled, as the spec's table requires. -/
inductive ErrorKind where
  | NotSupported
  | Programming
  | Data
  | Integrity
  | Internal
  | Operational
  | TransactionRollback
  | QueryCanceled
  | Database
deriving DecidableEq, Repr

/-- Embedding of `exception_from_sqlstate` (pqpath.c:68-146): a C switch
on the first character of the SQLSTATE, then an inner switch on the
second character, with the exact string `57014` special-cased to
`QueryCanceled` inside the `'5'` arm and `DatabaseError` as the final
fallback.  A character read past the end of the string is the C string
terminator, modelled as the null character default of `getD`. -/
def exception_from_sqlstate (sqlstate : List Char) : ErrorKind :=
  match sqlstate.getD 0 (Char.ofNat 0) with
  | '0' =>
    match sqlstate.getD 1 (Char.ofNat 0) with
    | 'A' => ErrorKind.NotSupported
    | _ => ErrorKind.Database
  | '2' =>
    match sqlstate.getD 1 (Char.ofNat 0) with
    | '1' => ErrorKind.Programming
    | '2' => ErrorKind.Data
    | '3' => ErrorKind.Integrity
    | '4' => ErrorKind.Internal
    | '5' => ErrorKind.Internal
    | '6' => ErrorKind.Operational
    | '7' => ErrorKind.Operational
    | '8' => ErrorKind.Operational
    | 'B' => ErrorKind.Internal
    | 'D' => ErrorKind.Internal
    | 'F' => ErrorKind.Internal
    | _ => ErrorKind.Database
  | '3' =>
    match sqlstate.getD 1 (Char.ofNat 0) with
    | '4' => ErrorKind.Operational
    | '8' => ErrorKind.Internal
    | '9' => ErrorKind.Internal
    | 'B' => ErrorKind.Internal
    | 'D' => ErrorKind.Programming
    | 'F' => ErrorKind.Programming
    | _ => ErrorKind.Database
  | '4' =>
    match sqlstate.getD 1 (Char.ofNat 0) with
    | '0' => ErrorKind.TransactionRollback
    | '2' => ErrorKind.Programming
    | '4' => ErrorKind.Programming
    | _ => ErrorKind.Database
  | '5' =>
    if sqlstate = ['5', '7', '0', '1', '4'] then ErrorKind.QueryCanceled
    else ErrorKind.Operational
  | 'F' => ErrorKind.Internal
  | 'P' => ErrorKind.Internal
  | 'X' => ErrorKind.Internal
  | _ => ErrorKind.Database

/-- The SQLSTATE-class → kind table exactly as the spec lists it (§4.2):
each entry is (first class character, second class character, mapped
kind).  This transcribes the spec's words, to be compared against the
code's `exception_from_sqlstate`. -/
def sqlstate_class_table : List (Char × Char × ErrorKind) :=
  [ ('0', 'A', ErrorKind.NotSupported),
    ('2', '1', ErrorKind.Programming),
    ('2', '2', ErrorKind.Data),
    ('2', '3', ErrorKind.Integrity),
    ('2', '4', ErrorKind.Internal),
    ('2', '5', ErrorKind.Internal),
    ('2', '6', ErrorKind.Operational),
    ('2', '7', ErrorKind.Operational),
    ('2', '8', ErrorKind.Operational),
    ('2', 'B', ErrorKind.Internal),
    ('2', 'D', ErrorKind.Internal),
    ('2', 'F', ErrorKind.Internal),
    ('3', '4', ErrorKind.Operational),
    ('3', '8', ErrorKind.Internal),
    ('3', '9', ErrorKind.Internal),
    ('3', 'B', ErrorKind.Internal),
    ('3', 'D', ErrorKind.Programming),
    ('3', 'F', ErrorKind.Programming),
    ('4', '0', ErrorKind.TransactionRollback),
    ('4', '2', ErrorKind.Programming),
    ('4', '4', ErrorKind.Programming),
    ('5', '3', ErrorKind.Operational),
    ('5', '4', ErrorKind.Operational),
    ('5', '5', ErrorKind.Operational),
    ('5', '7', ErrorKind.Operational),
    ('5', '8', ErrorKind.Operational),
    ('F', '0', ErrorKind.Internal),
    ('P', '0', ErrorKind.Internal),
    ('X', 'X', ErrorKind.Internal) ]

/-- The three severity tags recognised by `strip_severity`
(pqpath.c:50-62), each exactly 8 bytes including the two trailing
spaces. -/
def severity_tags : List (List Char) :=
  [ "ERROR:  ".data, "FATAL:  ".data, "PANIC:  ".data ]

/-- Embedding of `strip_severity` (pqpath.c:50-62): when the message is
strictly longer than 8 bytes (the C test is `strlen(msg) > 8`) and its
first 8 bytes are one of the severity tags, return the tail after those
8 bytes; otherwise, the NULL message included, return the message
unchanged. -/
def strip_severity (msg : Option (List Char)) : Option (List Char) :=
  match msg with
  | none => none
  | some m =>
    if 8 < m.length ∧ m.take 8 ∈ severity_tags then some (m.drop 8)
    else some m

/-- C `isspace` on the default locale, as consulted by `atoi` while
skipping leading whitespace. -/
def c_isspace (c : Char) : Bool :=
  c == ' ' || c == '\t' || c == '\n' || c == Char.ofNat 11 ||
    c == Char.ofNat 12 || c == '\r'

/-- The digit-accumulation loop of C `atoi`: consume decimal digits,
stopping at the first non-digit character. -/
def atoi_digits : List Char → Nat → Nat
  | [], acc => acc
  | c :: cs, acc =>
    if c.isDigit then atoi_digits cs (acc * 10 + (c.toNat - 48)) else acc

/-- Model of C `atoi` as applied to the `PQcmdTuples` text by `pq_fetch`
(pqpath.c:1359-1363): skip leading whitespace, honour an optional sign,
then accumulate decimal digits. -/
def atoi (s : List Char) : Int :=
  match s.dropWhile c_isspace with
  | '-' :: rest => - (atoi_digits rest 0 : Int)
  | '+' :: rest => (atoi_digits rest 0 : Int)
  | rest => (atoi_digits rest 0 : Int)

/-- The `PGRES_COMMAND_OK` rowcount rule of `pq_fetch`
(pqpath.c:1357-1366): an absent or empty `PQcmdTuples` string yields -1
(unknown), anything else is parsed with `atoi`. -/
def command_ok_rowcount (cmdTuples : Option (List Char)) : Int :=
  match cmdTuples with
  | none => -1
  | some s => if s = [] then -1 else atoi s

/-- The decimal integer denoted by a string of digit characters. -/
def decimal_value (s : List Char) : Nat :=
  s.foldl (fun a c => a * 10 + (c.toNat - 48)) 0

/-- Connection status values used by the transaction machine
(`CONN_STATUS_READY`, `CONN_STATUS_BEGIN`), plus the terminal CLOSED
state of spec §3 that the connection object enters on teardown. -/
inductive ConnStatus where
  | READY
  | BEGIN
  | CLOSED
deriving DecidableEq, Repr

/-- Async protocol phase (`ASYNC_WRITE` / `ASYNC_READ`, with the idle
phases of spec §3). -/
inductive AsyncStatus where
  | NONE
  | WRITE
  | READ
  | DONE
deriving DecidableEq, Repr

/-- The connection fields read or written by pqpath.c: transaction
status, isolation level, the transaction mark counter, the critical
(poison) message, the closed flag (0 open, 1 closed, 2 closed but
needing cleanup), and the async bookkeeping. -/
structure Conn where
  status : ConnStatus
  isolation_level : Nat
  mark : Nat
  critical : Option (List Char)
  closed : Nat
  async_status : AsyncStatus
  async_cursor : Bool
deriving DecidableEq, Repr

/-- Modelled from the spec: `conn_close` lives in the connection-object
code, which is not among the sources here; per §3 and §4.1 tearing the
session down moves the connection to the terminal CLOSED state. -/
def conn_close (conn : Conn) : Conn :=
  { conn with status := ConnStatus.CLOSED, closed := 1 }

/-- Embedding of `pq_set_critical` (pqpath.c:233-242): default a NULL
message to the connection's last wire error, then store a copy when the
result is a non-empty string, else store nothing. -/
def pq_set_critical (conn : Conn) (msg : Option (List Char))
    (wireError : Option (List Char)) : Conn :=
  let m := match msg with
    | none => wireError
    | some s => some s
  match m with
  | some s =>
    if s ≠ [] then { conn with critical := some s }
    else { conn with critical := none }
  | none => { conn with critical := none }

/-- Embedding of `pq_clear_critical` (pqpath.c:244-258). -/
def pq_clear_critical (conn : Conn) : Conn :=
  { conn with critical := none }

/-- Outcome of `pq_resolve_critical`: the updated connection plus the
message of the OperationalError it raised, if any. -/
structure ResolveOut where
  conn : Conn
  raised : Option (List Char)
deriving DecidableEq, Repr

/-- Embedding of `pq_resolve_critical` (pqpath.c:260-280): when the
critical flag holds a message, raise OperationalError with the text
starting at byte 6 of that message (the C code reads from
`conn->critical[6]`), close the connection when `close` is set, and
clear the flag; when the flag is already clear, do nothing at all. -/
def pq_resolve_critical (conn : Conn) (close : Bool) : ResolveOut :=
  match conn.critical with
  | some msg =>
    let conn1 := if close then conn_close conn else conn
    { conn := pq_clear_critical conn1, raised := some (msg.drop 6) }
  | none => { conn := conn, raised := none }

/-- The BEGIN command selected by the isolation level
(`pq_begin_locked`, pqpath.c:424-427). -/
def begin_command (iso : Nat) : String :=
  [ "",
    "BEGIN; SET TRANSACTION ISOLATION LEVEL READ COMMITTED",
    "BEGIN; SET TRANSACTION ISOLATION LEVEL SERIALIZABLE" ].getD iso ""

/-- Embedding of `pq_begin_locked` (pqpath.c:420-444).  The backend's
verdict on the issued command (`pq_execute_command_locked` returning 0
or -1) is the oracle `execOk`.  Returns the C return value, the updated
connection, and the list of commands issued. -/
def pq_begin_locked (conn : Conn) (execOk : Bool) : Int × Conn × List String :=
  if conn.isolation_level = 0 ∨ conn.status ≠ ConnStatus.READY then
    (0, conn, [])
  else if execOk then
    (0, { conn with status := ConnStatus.BEGIN },
      [begin_command conn.isolation_level])
  else
    (-1, conn, [begin_command conn.isolation_level])

/-- Embedding of `pq_commit` (pqpath.c:452-486): a no-op unless the
isolation level is nonzero and a transaction is open; otherwise bump
`mark`, issue COMMIT, and return to READY whether or not the command
succeeded (the status assignment in the C code is unconditional). -/
def pq_commit (conn : Conn) (execOk : Bool) : Int × Conn × List String :=
  if conn.isolation_level = 0 ∨ conn.status ≠ ConnStatus.BEGIN then
    (0, conn, [])
  else
    ((if execOk then 0 else -1),
      { conn with mark := conn.mark + 1, status := ConnStatus.READY },
      ["COMMIT"])

/-- The libpq oracle consulted during one `pq_execute` call: wire-session
health (`PQstatus`), the verdict on the BEGIN command, whether the
synchronous `PQexec` returns NULL, the `PQsendQuery` verdict, the
`PQflush` result, and the outcome of the trailing `pq_fetch`. -/
structure Backend where
  connOk : Bool
  beginOk : Bool
  execNull : Bool
  sendOk : Bool
  flushRes : Int
  fetchRes : Int
deriving DecidableEq, Repr

/-- The oracle outcomes under which every step of `pq_execute`
succeeds. -/
def Backend.allOk (b : Backend) : Prop :=
  b.connOk = true ∧ b.beginOk = true ∧ b.execNull = false ∧
    b.sendOk = true ∧ (b.flushRes = 0 ∨ b.flushRes = 1) ∧ b.fetchRes ≠ -1

instance (b : Backend) : Decidable b.allOk := by
  unfold Backend.allOk
  infer_instance

/-- Embedding of `pq_execute` (pqpath.c:742-848): resolve a pending
critical state (closing the connection) and fail; fail if the wire
session is unhealthy; open a transaction if needed; then either run the
query synchronously (a NULL result or a failing `pq_fetch` is an error)
or submit it asynchronously (send, then flush, recording the async
phase and owner).  The return value is `1 - async` on success and -1 on
any failure. -/
def pq_execute (conn : Conn) (b : Backend) (async : Nat) : Int × Conn :=
  if conn.critical.isSome then
    (-1, (pq_resolve_critical conn true).conn)
  else if b.connOk = false then
    (-1, conn)
  else
    let r := pq_begin_locked conn b.beginOk
    if r.1 < 0 then (-1, r.2.1)
    else
      let conn1 := r.2.1
      if async = 0 then
        if b.execNull then (-1, conn1)
        else if b.fetchRes = -1 then (-1, conn1)
        else (1 - (async : Int), conn1)
      else if async = 1 then
        if b.sendOk = false then (-1, conn1)
        else if b.flushRes = 0 then
          (1 - (async : Int),
            { conn1 with async_status := AsyncStatus.READ, async_cursor := true })
        else if b.flushRes = 1 then
          (1 - (async : Int),
            { conn1 with async_status := AsyncStatus.WRITE, async_cursor := true })
        else (-1, conn1)
      else
        (1 - (async : Int),
          { conn1 with async_status := AsyncStatus.WRITE, async_cursor := true })

/-- The backend interaction script for one `_pq_copy_in_v3` call: the
successive `PQputCopyData` results (1 sent, 0 queue full, -1 error), the
`PQputCopyEnd` result, and the queued results (`true` marks a
`PGRES_FATAL_ERROR`). -/
structure CopyInB where
  putDataRes : List Int
  putEndRes : Int
  results : List Bool
deriving DecidableEq, Repr

/-- Observable outcome of `_pq_copy_in_v3`: the chunks handed to
`PQputCopyData` in order, the argument of the `PQputCopyEnd` call
(`none` is the success terminator), how many queued results were drained
and released, how many fatal ones were raised, whether the
connection-level raise on a failed terminator happened (marking the
connection closed-needing-cleanup), and the C return value. -/
structure CopyInOut where
  sent : List (List Char)
  endArg : Option String
  drained : Nat
  raisedFatal : Nat
  raisedConn : Bool
  closedCleanup : Bool
  ret : Int
deriving DecidableEq, Repr

/-- The read-and-send loop of `_pq_copy_in_v3` (pqpath.c:1088-1116):
returns the final `error` code (0 clean end of data, 1 read failure, 2
send failure) and the chunks handed to `PQputCopyData` in order.  A
read past the end of the script is a failing `.read()` call; a chunk
longer than `INT_MAX` ends the loop with `error` still 0, exactly as the
C condition does. -/
def copy_in_loop : List (Option (List Char)) → List Int → List (List Char) →
    Nat × List (List Char)
  | [], _, sent => (1, sent)
  | none :: _, _, sent => (1, sent)
  | some chunk :: rest, puts, sent =>
    if chunk.length = 0 ∨ 2147483647 < chunk.length then (0, sent)
    else if puts.headD 1 = -1 then (2, sent ++ [chunk])
    else copy_in_loop rest puts.tail (sent ++ [chunk])

/-- Embedding of `_pq_copy_in_v3` (pqpath.c:1067-1157): run the
read-and-send loop, terminate the copy with `PQputCopyEnd` (a NULL
error string after a clean run, a descriptive error string otherwise),
then either raise on the connection (terminator result -1) or drain
every queued backend result, raising on each fatal one.  Returns 1 when
the loop ended cleanly and -1 otherwise. -/
def pq_copy_in_v3 (reads : List (Option (List Char))) (b : CopyInB) : CopyInOut :=
  let p := copy_in_loop reads b.putDataRes []
  let endArg : Option String :=
    if p.1 = 0 then none
    else if p.1 = 2 then some "error in PQputCopyData() call"
    else some "error in .read() call"
  if b.putEndRes = -1 then
    { sent := p.2, endArg := endArg, drained := 0, raisedFatal := 0,
      raisedConn := true, closedCleanup := true,
      ret := if p.1 = 0 then 1 else -1 }
  else
    { sent := p.2, endArg := endArg, drained := b.results.length,
      raisedFatal := b.results.countP (fun f => f), raisedConn := false,
      closedCleanup := false, ret := if p.1 = 0 then 1 else -1 }

/-- One `PQgetCopyData` answer: a data frame (whose length is the frame
size), the end-of-copy marker (-1), or the hard failure (-2). -/
inductive CopyDatum where
  | chunk (data : List Char)
  | eoc
  | failed
deriving DecidableEq, Repr

/-- The receive loop of `_pq_copy_out_v3` (pqpath.c:1223-1241): returns
the final `len` value, the frames forwarded to the sink in order, and
whether a sink write failed (ending the call early with -1).  A frame
script running out behaves as the end-of-copy answer. -/
def copy_out_loop : List CopyDatum → List Bool → List (List Char) →
    Int × List (List Char) × Bool
  | [], _, written => (-1, written, false)
  | CopyDatum.eoc :: _, _, written => (-1, written, false)
  | CopyDatum.failed :: _, _, written => (-2, written, false)
  | CopyDatum.chunk d :: rest, writes, written =>
    if d.length = 0 then (0, written, false)
    else if writes.headD true then copy_out_loop rest writes.tail (written ++ [d])
    else ((d.length : Int), written, true)

/-- Observable outcome of `_pq_copy_out_v3`: the frames forwarded to the
sink in order, how many queued results were drained, whether the -2
backend error was raised, how many fatal drained results were raised,
and the C return value. -/
structure CopyOutOut where
  written : List (List Char)
  drained : Nat
  raisedBackend : Bool
  raisedFatal : Nat
  ret : Int
deriving DecidableEq, Repr

/-- Embedding of `_pq_copy_out_v3` (pqpath.c:1209-1260): pull frames
until a length of 0 or less, forwarding each to the sink; a final
length of -2 raises the backend error and returns -1; otherwise every
queued backend result is drained and released, raising on each fatal
one, and the call returns 1. -/
def pq_copy_out_v3 (stream : List CopyDatum) (writes : List Bool)
    (results : List Bool) : CopyOutOut :=
  let p := copy_out_loop stream writes []
  if p.2.2 then
    { written := p.2.1, drained := 0, raisedBackend := false,
      raisedFatal := 0, ret := -1 }
  else if p.1 = -2 then
    { written := p.2.1, drained := 0, raisedBackend := true,
      raisedFatal := 0, ret := -1 }
  else
    { written := p.2.1, drained := results.length,
      raisedBackend := false, raisedFatal := results.countP (fun f => f),
      ret := 1 }

/-- A sample open connection in READY state with the given isolation
level and mark, used by the concrete witnesses. -/
def conn_ready (iso : Nat) (mark : Nat) : Conn :=
  { status := ConnStatus.READY, isolation_level := iso, mark := mark,
    critical := none, closed := 0, async_status := AsyncStatus.NONE,
    async_cursor := false }

/-- A sample open connection inside a transaction, used by the concrete
witnesses. -/
def conn_begin (iso : Nat) (mark : Nat) : Conn :=
  { status := ConnStatus.BEGIN, isolation_level := iso, mark := mark,
    critical := none, closed := 0, async_status := AsyncStatus.NONE,
    async_cursor := false }

/-- A sample connection whose critical flag holds the given message,
used by the concrete witnesses. -/
def conn_poisoned (msg : List Char) : Conn :=
  { status := ConnStatus.READY, isolation_level := 1, mark := 0,
    critical := some msg, closed := 0, async_status := AsyncStatus.NONE,
    async_cursor := false }

/-- A backend oracle on which every step succeeds, used by the concrete
witnesses. -/
def backend_allgood : Backend :=
  { connOk := true, beginOk := true, execNull := false, sendOk := true,
    flushRes := 0, fetchRes := 1 }

/-- A digit character is not whitespace for `c_isspace`. -/
lemma digit_not_space (c : Char) (h : c.isDigit = true) : c_isspace c = false := by
  simp only [c_isspace, Bool.or_eq_false_iff, beq_eq_false_iff_ne, ne_eq]
  refine ⟨⟨⟨⟨⟨?_, ?_⟩, ?_⟩, ?_⟩, ?_⟩, ?_⟩ <;> rintro rfl <;> exact absurd h (by decide)

/-- On a string of digits, the `atoi` accumulation loop is a decimal
fold. -/
lemma atoi_digits_eq_foldl (s : List Char) (h : ∀ c ∈ s, c.isDigit = true)
    (acc : Nat) :
    atoi_digits s acc = s.foldl (fun a c => a * 10 + (c.toNat - 48)) acc := by
  induction s generalizing acc with
  | nil => rfl
  | cons c cs ih =>
    have hc : c.isDigit = true := h c (List.mem_cons_self c cs)
    rw [atoi_digits, if_pos hc, List.foldl_cons]
    exact ih (fun d hd => h d (List.mem_cons_of_mem c hd)) _

/-- C7: `strip_severity` removes the 8-byte severity tag from any message
that begins with `ERROR:  `, `FATAL:  ` or `PANIC:  ` and continues past
it, returning exactly the tail; a message of at most 8 bytes, or one
whose first 8 bytes match no tag, passes through unchanged. -/
theorem strip_severity_spec (msg : List Char) :
    (∀ tag ∈ severity_tags, ∀ t : List Char, t ≠ [] →
        strip_severity (some (tag ++ t)) = some t) ∧
    (msg.length ≤ 8 → strip_severity (some msg) = some msg) ∧
    (msg.take 8 ∉ severity_tags → strip_severity (some msg) = some msg) := by
  refine ⟨?_, ?_, ?_⟩
  · intro tag htag t ht
    have hpos : 0 < t.length := List.length_pos.mpr ht
    fin_cases htag <;>
    · simp only [strip_severity]
      rw [if_pos ⟨by rw [List.length_append]; show 8 < 8 + t.length; omega,
        by rw [List.take_left' (by decide)]; decide⟩]
      rw [List.drop_left' (by decide)]
  · intro h
    simp only [strip_severity]
    rw [if_neg]
    intro hc
    exact absurd hc.1 (by omega)
  · intro h
    simp only [strip_severity]
    rw [if_neg]
    intro hc
    exact absurd hc.2 h

/-- C7 witness: a tagged message loses exactly its tag, a short message
and a non-matching message pass through. -/
theorem strip_severity_spec_witness :
    "ERROR:  ".data ∈ severity_tags ∧ ['o', 'k'] ≠ ([] : List Char) ∧
    strip_severity (some ("ERROR:  ".data ++ ['o', 'k'])) = some ['o', 'k'] ∧
    strip_severity (some ['h', 'i']) = some ['h', 'i'] :=
  ⟨by decide, by decide,
    (strip_severity_spec []).1 "ERROR:  ".data (by decide) ['o', 'k'] (by decide),
    (strip_severity_spec ['h', 'i']).2.1 (by decide)⟩

/-- C8: a command-only result sets rowcount to -1 when the affected-rows
text is absent or empty, and to the decimal integer the text denotes
otherwise; in particular the text `3` yields the integer 3. -/
theorem command_ok_rowcount_spec (s : List Char) :
    command_ok_rowcount none = -1 ∧
    command_ok_rowcount (some []) = -1 ∧
    (s ≠ [] → (∀ c ∈ s, c.isDigit = true) →
      command_ok_rowcount (some s) = (decimal_value s : Int)) ∧
    command_ok_rowcount (some ['3']) = 3 := by
  refine ⟨rfl, by decide, ?_, by decide⟩
  intro hne hdig
  rcases s with _ | ⟨c, cs⟩
  · exact absurd rfl hne
  have hc := hdig c (List.mem_cons_self c cs)
  simp only [command_ok_rowcount]
  rw [if_neg (by simp)]
  unfold atoi
  rw [List.dropWhile_cons, digit_not_space c hc, if_neg (by simp)]
  split
  · rename_i r heq
    rw [List.cons.injEq] at heq
    rw [heq.1] at hc
    exact absurd hc (by decide)
  · rename_i r heq
    rw [List.cons.injEq] at heq
    rw [heq.1] at hc
    exact absurd hc (by decide)
  · unfold decimal_value
    exact_mod_cast congrArg Nat.cast (atoi_digits_eq_foldl _ hdig 0)

/-- C8 witness: the text `42` parses to 42, empty text gives -1. -/
theorem command_ok_rowcount_spec_witness :
    ['4', '2'] ≠ ([] : List Char) ∧ (∀ c ∈ ['4', '2'], c.isDigit = true) ∧
    command_ok_rowcount (some ['4', '2']) = (decimal_value ['4', '2'] : Int) ∧
    command_ok_rowcount (some []) = -1 :=
  ⟨by decide, by decide,
    (command_ok_rowcount_spec ['4', '2']).2.2.1 (by decide) (by decide),
    (command_ok_rowcount_spec []).2.1⟩

/-- C9: after any `pq_resolve_critical` call the critical flag is clear,
and a further call is a strict no-op: it raises nothing, closes nothing,
and returns the connection state unchanged. -/
theorem resolve_critical_idempotent (conn : Conn) (close1 close2 : Bool) :
    pq_resolve_critical (pq_resolve_critical conn close1).conn close2 =
      { conn := (pq_resolve_critical conn close1).conn, raised := none } := by
  rcases h : conn.critical with _ | msg <;> cases close1 <;>
    simp [pq_resolve_critical, pq_clear_critical, conn_close, h]

/-- C10: resolving a stored critical message of length at least 6
surfaces the message with exactly its first 6 bytes missing (the code
reads from `conn->critical[6]`), never the stored string itself. -/
theorem critical_message_skips_six (conn : Conn) (msg : List Char) (close : Bool)
    (hne : msg ≠ []) (hlen : 6 ≤ msg.length) :
    (pq_set_critical conn (some msg) none).critical = some msg ∧
    (pq_resolve_critical (pq_set_critical conn (some msg) none) close).raised =
      some (msg.drop 6) ∧
    msg.take 6 ++ msg.drop 6 = msg ∧
    (msg.take 6).length = 6 ∧
    (pq_resolve_critical (pq_set_critical conn (some msg) none) close).raised ≠
      some msg := by
  have hset : (pq_set_critical conn (some msg) none).critical = some msg := by
    simp [pq_set_critical, hne]
  have hr : (pq_resolve_critical (pq_set_critical conn (some msg) none) close).raised =
      some (msg.drop 6) := by
    simp [pq_resolve_critical, hset]
  refine ⟨hset, hr, List.take_append_drop 6 msg, ?_, ?_⟩
  · rw [List.length_take]
    omega
  · rw [hr]
    intro h
    rw [Option.some.injEq] at h
    have h2 : (msg.drop 6).length = msg.length := by rw [h]
    rw [List.length_drop] at h2
    have hpos : 0 < msg.length := List.length_pos.mpr hne
    omega

/-- C10 witness: the stored message `FATAL: boom` surfaces as ` boom`. -/
theorem critical_message_skips_six_witness :
    "FATAL: boom".data ≠ ([] : List Char) ∧ 6 ≤ "FATAL: boom".data.length ∧
    (pq_resolve_critical
        (pq_set_critical
          { status := ConnStatus.READY, isolation_level := 1, mark := 0,
            critical := none, closed := 0, async_status := AsyncStatus.NONE,
            async_cursor := false }
          (some "FATAL: boom".data) none) true).raised =
      some (" boom".data) :=
  ⟨by decide, by decide, by
    have h := (critical_message_skips_six
      { status := ConnStatus.READY, isolation_level := 1, mark := 0,
        critical := none, closed := 0, async_status := AsyncStatus.NONE,
        async_cursor := false }
      "FATAL: boom".data true (by decide) (by decide)).2.1
    rw [h]
    decide⟩

/-- With a backend that accepts the command, `pq_begin_locked` always
returns 0, whether it acted or was a no-op. -/
lemma pq_begin_locked_true_fst (conn : Conn) : (pq_begin_locked conn true).1 = 0 := by
  unfold pq_begin_locked
  split <;> rfl

/-- C2: from READY with nonzero isolation level and a backend that
accepts the BEGIN command, `pq_begin_locked` moves the connection to
BEGIN and a following `pq_commit` returns it to READY with `mark`
bumped exactly once over the pair; `pq_begin_locked` is a strict no-op
(return 0, no command issued, state untouched) when the isolation level
is 0 or the status is not READY. -/
theorem begin_commit_state_machine (conn : Conn) (e1 e2 : Bool) :
    (conn.status = ConnStatus.READY → conn.isolation_level ≠ 0 →
      (pq_begin_locked conn true).2.1.status = ConnStatus.BEGIN ∧
      (pq_commit (pq_begin_locked conn true).2.1 e2).2.1.status = ConnStatus.READY ∧
      (pq_commit (pq_begin_locked conn true).2.1 e2).2.1.mark = conn.mark + 1) ∧
    (conn.isolation_level = 0 ∨ conn.status ≠ ConnStatus.READY →
      pq_begin_locked conn e1 = (0, conn, [])) := by
  constructor
  · intro hst hiso
    have hb : pq_begin_locked conn true =
        (0, { conn with status := ConnStatus.BEGIN },
          [begin_command conn.isolation_level]) := by
      unfold pq_begin_locked
      rw [if_neg (by simp [hst, hiso]), if_pos rfl]
    rw [hb]
    unfold pq_commit
    rw [if_neg (by simp [hiso])]
    simp
  · intro h
    unfold pq_begin_locked
    rw [if_pos h]

/-- C2 witness: a READY serializable connection goes to BEGIN and back
to READY with one mark bump; an autocommit connection sees a strict
no-op begin. -/
theorem begin_commit_state_machine_witness :
    (ConnStatus.READY = ConnStatus.READY ∧ (2 : Nat) ≠ 0 ∧
      (pq_begin_locked (conn_ready 2 7) true).2.1.status = ConnStatus.BEGIN ∧
      (pq_commit (pq_begin_locked (conn_ready 2 7) true).2.1 true).2.1.status =
        ConnStatus.READY ∧
      (pq_commit (pq_begin_locked (conn_ready 2 7) true).2.1 true).2.1.mark = 7 + 1) ∧
    pq_begin_locked (conn_ready 0 7) true = (0, conn_ready 0 7, []) :=
  ⟨⟨rfl, by decide,
    ((begin_commit_state_machine (conn_ready 2 7) true true).1 rfl (by decide)).1,
    ((begin_commit_state_machine (conn_ready 2 7) true true).1 rfl (by decide)).2.1,
    ((begin_commit_state_machine (conn_ready 2 7) true true).1 rfl (by decide)).2.2⟩,
   (begin_commit_state_machine (conn_ready 0 7) true true).2 (Or.inl rfl)⟩

/-- C4: `pq_commit` in BEGIN with a nonzero isolation level returns the
connection to READY and bumps `mark` whether or not the COMMIT command
succeeded; only its return value (0 against -1) tells the outcomes
apart. -/
theorem commit_unconditional_ready (conn : Conn) (execOk : Bool)
    (h1 : conn.status = ConnStatus.BEGIN) (h2 : conn.isolation_level ≠ 0) :
    (pq_commit conn execOk).2.1.status = ConnStatus.READY ∧
    (pq_commit conn execOk).2.1.mark = conn.mark + 1 ∧
    ((pq_commit conn execOk).1 = 0 ↔ execOk = true) ∧
    ((pq_commit conn execOk).1 = -1 ↔ execOk = false) := by
  unfold pq_commit
  rw [if_neg (by simp [h1, h2])]
  cases execOk <;> simp

/-- C4 witness: a failing COMMIT still leaves the sample connection
READY with `mark` bumped, and returns -1. -/
theorem commit_unconditional_ready_witness :
    ConnStatus.BEGIN = ConnStatus.BEGIN ∧ (1 : Nat) ≠ 0 ∧
    (pq_commit (conn_begin 1 3) false).2.1.status = ConnStatus.READY ∧
    (pq_commit (conn_begin 1 3) false).2.1.mark = 3 + 1 ∧
    ((pq_commit (conn_begin 1 3) false).1 = -1 ↔ false = false) :=
  ⟨rfl, by decide,
    (commit_unconditional_ready (conn_begin 1 3) false rfl (by decide)).1,
    (commit_unconditional_ready (conn_begin 1 3) false rfl (by decide)).2.1,
    (commit_unconditional_ready (conn_begin 1 3) false rfl (by decide)).2.2.2⟩

/-- C3: `pq_execute` on a critical connection resolves the critical
state (closing the connection, clearing the flag) and fails with -1;
otherwise it returns either -1 (some step failed) or `1 - async`, and
when every backend step succeeds it returns exactly `1 - async`: 1 for
a synchronous call, 0 for an asynchronous submission. -/
theorem execute_return_discipline (conn : Conn) (b : Backend) (async : Nat) :
    (conn.critical.isSome = true →
      (pq_execute conn b async).1 = -1 ∧
      (pq_execute conn b async).2.status = ConnStatus.CLOSED ∧
      (pq_execute conn b async).2.closed = 1 ∧
      (pq_execute conn b async).2.critical = none) ∧
    (conn.critical = none →
      (pq_execute conn b async).1 = -1 ∨
      (pq_execute conn b async).1 = 1 - (async : Int)) ∧
    (conn.critical = none → b.allOk →
      (pq_execute conn b async).1 = 1 - (async : Int)) := by
  refine ⟨?_, ?_, ?_⟩
  · intro hcrit
    rw [Option.isSome_iff_exists] at hcrit
    obtain ⟨msg, hmsg⟩ := hcrit
    simp [pq_execute, hmsg, pq_resolve_critical, conn_close, pq_clear_critical]
  · intro h
    simp only [pq_execute]
    rw [if_neg (by simp [h])]
    split_ifs <;> simp
  · intro h hok
    obtain ⟨hc, hb, he, hs, hf, hfe⟩ := hok
    simp only [pq_execute]
    rw [hb, if_neg (by simp [h]), if_neg (by simp [hc]),
      if_neg (by simp [pq_begin_locked_true_fst])]
    by_cases h0 : async = 0
    · subst h0
      rw [if_pos rfl, if_neg (by simp [he]), if_neg hfe]
    · rw [if_neg h0]
      by_cases h1 : async = 1
      · subst h1
        rw [if_pos rfl, if_neg (by simp [hs])]
        rcases hf with hf | hf
        · rw [if_pos hf]
        · rw [if_neg (by omega), if_pos hf]
      · rw [if_neg h1]

/-- C3 witness: a poisoned connection fails with -1; a healthy
connection with an all-succeeding backend returns 1 synchronously and 0
asynchronously. -/
theorem execute_return_discipline_witness :
    (Option.isSome (conn_poisoned "FATAL: gone".data).critical = true ∧
      (pq_execute (conn_poisoned "FATAL: gone".data) backend_allgood 0).1 = -1) ∧
    ((conn_ready 1 0).critical = none ∧ Backend.allOk backend_allgood ∧
      (pq_execute (conn_ready 1 0) backend_allgood 0).1 = 1 - (0 : Int) ∧
      (pq_execute (conn_ready 1 0) backend_allgood 1).1 = 1 - (1 : Int)) :=
  ⟨⟨rfl,
    ((execute_return_discipline (conn_poisoned "FATAL: gone".data)
      backend_allgood 0).1 rfl).1⟩,
   ⟨rfl, by decide,
    (execute_return_discipline (conn_ready 1 0) backend_allgood 0).2.2 rfl (by decide),
    (execute_return_discipline (conn_ready 1 0) backend_allgood 1).2.2 rfl (by decide)⟩⟩

/-- C5: a copy-in source yielding `abc`, `def`, then the empty string
sends exactly the two chunks `abc` then `def`, terminates the copy with
the success marker (NULL error argument to `PQputCopyEnd`), and, the
terminator having been accepted, drains every queued backend result,
raising on each fatal one, and returns 1. -/
theorem copy_in_v3_two_chunks (results : List Bool) (endRes : Int)
    (h : endRes ≠ -1) :
    pq_copy_in_v3 [some ['a', 'b', 'c'], some ['d', 'e', 'f'], some []]
        { putDataRes := [1, 1], putEndRes := endRes, results := results } =
      { sent := [['a', 'b', 'c'], ['d', 'e', 'f']], endArg := none,
        drained := results.length, raisedFatal := results.countP (fun f => f),
        raisedConn := false, closedCleanup := false, ret := 1 } := by
  have hloop : copy_in_loop [some ['a', 'b', 'c'], some ['d', 'e', 'f'], some []]
      [1, 1] [] = (0, [['a', 'b', 'c'], ['d', 'e', 'f']]) := by decide
  simp [pq_copy_in_v3, hloop, h]

/-- C5 witness: the scenario evaluated with an accepted terminator and
two queued results, one fatal. -/
theorem copy_in_v3_two_chunks_witness :
    (1 : Int) ≠ -1 ∧
    pq_copy_in_v3 [some ['a', 'b', 'c'], some ['d', 'e', 'f'], some []]
        { putDataRes := [1, 1], putEndRes := 1, results := [false, true] } =
      { sent := [['a', 'b', 'c'], ['d', 'e', 'f']], endArg := none,
        drained := [false, true].length,
        raisedFatal := [false, true].countP (fun f => f),
        raisedConn := false, closedCleanup := false, ret := 1 } :=
  ⟨by decide, copy_in_v3_two_chunks [false, true] 1 (by decide)⟩

/-- C6: three non-empty copy-out frames followed by end-of-copy are
forwarded to the sink in order, nothing lost or duplicated, and every
queued backend result is drained afterwards with the call returning 1;
a frame length of -2 instead raises the backend error and returns -1
with nothing drained. -/
theorem copy_out_v3_forwarding (d1 d2 d3 : List Char) (results : List Bool)
    (h1 : d1 ≠ []) (h2 : d2 ≠ []) (h3 : d3 ≠ []) :
    pq_copy_out_v3 [CopyDatum.chunk d1, CopyDatum.chunk d2, CopyDatum.chunk d3,
        CopyDatum.eoc] [] results =
      { written := [d1, d2, d3], drained := results.length,
        raisedBackend := false, raisedFatal := results.countP (fun f => f),
        ret := 1 } ∧
    pq_copy_out_v3 [CopyDatum.failed] [] results =
      { written := [], drained := 0, raisedBackend := true, raisedFatal := 0,
        ret := -1 } := by
  constructor
  · have e1 : ¬d1.length = 0 := by simpa using h1
    have e2 : ¬d2.length = 0 := by simpa using h2
    have e3 : ¬d3.length = 0 := by simpa using h3
    simp [pq_copy_out_v3, copy_out_loop, e1, e2, e3]
  · simp [pq_copy_out_v3, copy_out_loop]

/-- C6 witness: three one-byte frames then end-of-copy, with one queued
fatal result, and the -2 failure case. -/
theorem copy_out_v3_forwarding_witness :
    ['x'] ≠ ([] : List Char) ∧
    pq_copy_out_v3 [CopyDatum.chunk ['x'], CopyDatum.chunk ['y'],
        CopyDatum.chunk ['z'], CopyDatum.eoc] [] [true] =
      { written := [['x'], ['y'], ['z']], drained := [true].length,
        raisedBackend := false, raisedFatal := [true].countP (fun f => f),
        ret := 1 } ∧
    pq_copy_out_v3 [CopyDatum.failed] [] [true] =
      { written := [], drained := 0, raisedBackend := true, raisedFatal := 0,
        ret := -1 } :=
  ⟨by decide,
    (copy_out_v3_forwarding ['x'] ['y'] ['z'] [true]
      (by decide) (by decide) (by decide)).1,
    (copy_out_v3_forwarding ['x'] ['y'] ['z'] [true]
      (by decide) (by decide) (by decide)).2⟩

/-- C1 counterexample: the class code `50` appears nowhere in the spec's
§4.2 table, yet `exception_from_sqlstate` classifies the SQLSTATE
`50000` as `Operational` (the C switch maps every code starting with
`5` there), not as the generic `Database` fallback the claim requires
for unlisted class codes. -/
theorem sqlstate_unlisted_class_counterexample :
    ('5', '0') ∉ sqlstate_class_table.map (fun e => (e.1, e.2.1)) ∧
    exception_from_sqlstate ['5', '0', '0', '0', '0'] = ErrorKind.Operational ∧
    ErrorKind.Operational ≠ ErrorKind.Database := by decide

/-- C1 (amended): every class code listed in the spec's table is mapped
to exactly its listed kind, with the exact code `57014` mapped to
`QueryCanceled` instead of `Operational`; but the unlisted-code fallback
is by first character: any code starting with `5` other than `57014` is
`Operational`, any code starting with `F`, `P` or `X` is `Internal`,
and only a code that is unlisted and starts with none of those four
characters falls back to the generic `Database` kind. -/
theorem sqlstate_classification_amended :
    (∀ e ∈ sqlstate_class_table, ∀ rest : List Char,
        e.1 :: e.2.1 :: rest ≠ ['5', '7', '0', '1', '4'] →
        exception_from_sqlstate (e.1 :: e.2.1 :: rest) = e.2.2) ∧
    exception_from_sqlstate ['5', '7', '0', '1', '4'] = ErrorKind.QueryCanceled ∧
    (∀ (c1 : Char) (rest : List Char),
        '5' :: c1 :: rest ≠ ['5', '7', '0', '1', '4'] →
        exception_from_sqlstate ('5' :: c1 :: rest) = ErrorKind.Operational) ∧
    (∀ (c0 c1 : Char) (rest : List Char), c0 = 'F' ∨ c0 = 'P' ∨ c0 = 'X' →
        exception_from_sqlstate (c0 :: c1 :: rest) = ErrorKind.Internal) ∧
    (∀ (c0 c1 : Char) (rest : List Char),
        (c0, c1) ∉ sqlstate_class_table.map (fun e => (e.1, e.2.1)) →
        c0 ≠ '5' → c0 ≠ 'F' → c0 ≠ 'P' → c0 ≠ 'X' →
        exception_from_sqlstate (c0 :: c1 :: rest) = ErrorKind.Database) := by
  refine ⟨?_, by decide, ?_, ?_, ?_⟩
  · intro e he rest hne
    fin_cases he <;> first | rfl | exact if_neg hne
  · intro c1 rest hne
    exact if_neg hne
  · rintro c0 c1 rest (rfl | rfl | rfl) <;> rfl
  · intro c0 c1 rest htab h5 hF hP hX
    unfold exception_from_sqlstate
    split
    · rename_i heq
      split <;> rename_i heq1 <;>
        first
        | rfl
        | (rw [show ((c0 :: c1 :: rest).getD 0 (Char.ofNat 0)) = c0 from rfl] at heq
           rw [show ((c0 :: c1 :: rest).getD 1 (Char.ofNat 0)) = c1 from rfl] at heq1
           subst heq heq1
           exact absurd (by decide) htab)
    · rename_i heq
      split <;> rename_i heq1 <;>
        first
        | rfl
        | (rw [show ((c0 :: c1 :: rest).getD 0 (Char.ofNat 0)) = c0 from rfl] at heq
           rw [show ((c0 :: c1 :: rest).getD 1 (Char.ofNat 0)) = c1 from rfl] at heq1
           subst heq heq1
           exact absurd (by decide) htab)
    · rename_i heq
      split <;> rename_i heq1 <;>
        first
        | rfl
        | (rw [show ((c0 :: c1 :: rest).getD 0 (Char.ofNat 0)) = c0 from rfl] at heq
           rw [show ((c0 :: c1 :: rest).getD 1 (Char.ofNat 0)) = c1 from rfl] at heq1
           subst heq heq1
           exact absurd (by decide) htab)
    · rename_i heq
      split <;> rename_i heq1 <;>
        first
        | rfl
        | (rw [show ((c0 :: c1 :: rest).getD 0 (Char.ofNat 0)) = c0 from rfl] at heq
           rw [show ((c0 :: c1 :: rest).getD 1 (Char.ofNat 0)) = c1 from rfl] at heq1
           subst heq heq1
           exact absurd (by decide) htab)
    · rename_i heq
      exact absurd heq h5
    · rename_i heq
      exact absurd heq hF
    · rename_i heq
      exact absurd heq hP
    · rename_i heq
      exact absurd heq hX
    · rfl

/-- C1 witness: the listed class `23` maps to `Integrity` on a full
SQLSTATE, and the unlisted class `00` falls back to `Database`. -/
theorem sqlstate_classification_amended_witness :
    (('2', '3', ErrorKind.Integrity) ∈ sqlstate_class_table ∧
      exception_from_sqlstate ['2', '3', '5', '0', '5'] = ErrorKind.Integrity) ∧
    (('0', '0') ∉ sqlstate_class_table.map (fun e => (e.1, e.2.1)) ∧
      exception_from_sqlstate ['0', '0', '1', '2', '3'] = ErrorKind.Database) :=
  ⟨⟨by decide,
    sqlstate_classification_amended.1 ('2', '3', ErrorKind.Integrity) (by decide)
      ['5', '0', '5'] (by decide)⟩,
   ⟨by decide,
    sqlstate_classification_amended.2.2.2.2 '0' '0' ['1', '2', '3'] (by decide)
      (by decide) (by decide) (by decide) (by decide)⟩⟩
